import Mathlib

/-
Verification of the Harness plugin ("strapon") loader against its
natural-language specification.  The definitions below are a shallow
embedding of the Python sources:

  - src/harness/components/strapon.py  (importable_normalise, StraponMetadata,
    Strapon.load, Strapon.install_requirements, log_stream)
  - src/harness/components/config.py   (StraponConfig.load / .data)
  - src/harness/bot.py                 (HarnessBot.load_extension,
    HarnessBot._load_from_module_spec, HarnessBot.load_all_strapons,
    HarnessBot.setup_bot_logging)

Pure functions are translated to Lean functions; stateful code passes the
state (sys.modules, the extension table, the cog dispatcher, the logs
directory) explicitly; fallible code returns Except.  External effects
(what a file contains, whether a subprocess exit code is zero, whether the
module body raises on execution) are inputs to the functions that observe
them.
-/

namespace Harness

/-! ## importable_normalise (strapon.py lines 24-30)

Python: `re.sub(r"[-_.]+", "_", name).lower()` — every maximal run of the
characters `-`, `_`, `.` is replaced by a single `_`, then the string is
lowercased. -/

def isSepChar (c : Char) : Bool :=
  c == '-' || c == '_' || c == '.'

/-- One step of the run-collapsing substitution, consumed by `foldr`.
A separator is dropped when the accumulated suffix already starts with the
`_` emitted for the same run, otherwise it contributes one `_`. -/
def collapseStep (c : Char) (acc : List Char) : List Char :=
  if isSepChar c then
    match acc with
    | '_' :: _ => acc
    | _ => '_' :: acc
  else c :: acc

def collapseSeps (l : List Char) : List Char :=
  l.foldr collapseStep []

def importable_normalise (s : String) : String :=
  String.mk ((collapseSeps s.data).map Char.toLower)

/-! ## Dependency specifiers and the installed-package snapshot

`packaging.requirements.Requirement` keeps the name exactly as written in
the manifest and exposes the version constraint as a containment check
(`version in requirement.specifier`); both are opaque to this core, so a
requirement is modelled as its name plus the containment predicate. -/

structure Requirement where
  name : String
  specContains : String → Bool

/-- One distribution of the `importlib.metadata.distributions()` snapshot:
its canonical name and installed version. -/
structure Distribution where
  name : String
  version : String

/-- Model of `importlib.metadata.version(name)`: the version of the first
distribution in the snapshot whose name matches.  (Inside
`install_requirements` it is only called under the exact-name guard
`requirement.name == installed.name`, so an exactly-named distribution is
present in the snapshot there.) -/
def version_lookup (installed : List Distribution) (n : String) : Option String :=
  (installed.find? (fun d => d.name == n)).map (fun d => d.version)

/-- The `for installed in installed_distributions` loop of `is_unsatisfied`
(strapon.py lines 125-131): skip distributions whose name differs from the
requirement's name by exact string comparison; under a name match, the
requirement is satisfied when `importlib.metadata.version(requirement.name)`
lies in the specifier. -/
def isUnsatisfiedAux (full : List Distribution) (r : Requirement) :
    List Distribution → Bool
  | [] => true
  | d :: rest =>
    if r.name = d.name then
      match version_lookup full r.name with
      | some v => if r.specContains v then false else isUnsatisfiedAux full r rest
      | none => isUnsatisfiedAux full r rest
    else isUnsatisfiedAux full r rest

def is_unsatisfied (installed : List Distribution) (r : Requirement) : Bool :=
  isUnsatisfiedAux installed r installed

/-- Observable outcome of one `Strapon.install_requirements` call
(strapon.py lines 122-164): which requirements were classified missing and
passed to the installer, how many installer subprocesses were spawned, and
the returned value — `false` when nothing was missing, `true` after a
successful install, or `CalledProcessError(exitCode)` on a non-zero exit. -/
structure InstallOutcome where
  missing : List Requirement
  spawns : Nat
  result : Except Int Bool

/-- Model of `Strapon.install_requirements`.  The snapshot of installed
distributions and the installer subprocess's exit code are inputs.  The
choice between `uv` and `pip` only affects the argv prefix, not any
observable the spec talks about, and is not modelled. -/
def install_requirements (installed : List Distribution) (exitCode : Int)
    (reqs : List Requirement) : InstallOutcome :=
  let missing := reqs.filter (fun r => is_unsatisfied installed r)
  if missing.isEmpty then
    { missing := missing, spawns := 0, result := .ok false }
  else
    { missing := missing, spawns := 1,
      result := if exitCode = 0 then .ok true else .error exitCode }

/-! ## Manifest metadata (strapon.py StraponMetadata, lines 33-58)

The parsed `pyproject.toml` document is modelled structurally: the optional
`[project]` table with its optional `name` and `id` keys and the (already
parsed) dependency list.  A candidate directory carries the filesystem facts
the discovery loop and the constructor observe. -/

structure ProjectTable where
  name : Option String
  id : Option String
  dependencies : List Requirement

structure PyProject where
  project : Option ProjectTable

/-- A subdirectory of the strapons directory as seen by discovery: its base
name, the import path derived from its location, whether `__init__.py` and
`pyproject.toml` exist, and the parse of the manifest (`none` models
`tomllib` raising on malformed TOML). -/
structure Candidate where
  dirName : String
  importName : String
  hasInit : Bool
  hasPyproject : Bool
  toml : Option PyProject

structure StraponMetadata where
  display_name : String
  id : String
  import_name : String
  requirements : List Requirement

inductive ManifestError where
  | fileNotFound
  | tomlError
  | missingName
  | missingId
  | idNotImportable
  | idMismatch
deriving DecidableEq

/-- Model of `StraponMetadata.__init__`: check the manifest file exists,
parse it, require `project.name` and `project.id`, require the id to be in
normalised form and to equal the directory's base name, then read the
dependency list. -/
def straponMetadataInit (c : Candidate) : Except ManifestError StraponMetadata :=
  if ¬ c.hasPyproject then .error .fileNotFound
  else match c.toml with
  | none => .error .tomlError
  | some py =>
    match py.project with
    | none => .error .missingName
    | some proj =>
      match proj.name with
      | none => .error .missingName
      | some nm =>
        match proj.id with
        | none => .error .missingId
        | some i =>
          if i ≠ importable_normalise i then .error .idNotImportable
          else if i ≠ c.dirName then .error .idMismatch
          else .ok { display_name := nm, id := i, import_name := c.importName,
                     requirements := proj.dependencies }

/-! ## Discovery (bot.py load_all_strapons, lines 189-199)

The loop over `strapons_dir.iterdir()`: a subdirectory missing
`__init__.py` or `pyproject.toml` is skipped with a warning; otherwise
`StraponMetadata(subdir_path)` runs — and any exception it raises
propagates out of `load_all_strapons`, which the Except models.  Candidates
whose id is in the enabled allowlist are collected. -/

def discoverStrapons : List Candidate → List String →
    Except ManifestError (List StraponMetadata)
  | [], _ => .ok []
  | c :: rest, enabled =>
    if ¬ (c.hasInit && c.hasPyproject) then discoverStrapons rest enabled
    else
      match straponMetadataInit c with
      | .error e => .error e
      | .ok md =>
        match discoverStrapons rest enabled with
        | .error e => .error e
        | .ok mds => .ok (if enabled.contains md.id then md :: mds else mds)

/-! ## Config store (config.py StraponConfig, lines 9-38)

A strictyaml document is opaque beyond the one fact the code checks: whether
`data.data` is a dict.  What a particular load attempt encounters — an
unreadable file, a schema violation raised by `strictyaml.load`, or a parsed
value — is the input of `StraponConfig.load`. -/

inductive YamlValue where
  | mapping (entries : List (String × String))
  | nonMapping
deriving DecidableEq

structure StraponConfig where
  loadedData : Option YamlValue
deriving DecidableEq

/-- Model of the `data` property: returns the current document or the
absent sentinel (`None`); never throws. -/
def StraponConfig.data (c : StraponConfig) : Option YamlValue :=
  c.loadedData

inductive ConfigFileInput where
  | unreadable
  | schemaViolation
  | parsed (v : YamlValue)
deriving DecidableEq

inductive ConfigLoadError where
  | ioError
  | schemaViolation
  | notAMapping
deriving DecidableEq

/-- Model of `StraponConfig.load`, mirroring statement order: the file read
(`aiofiles.open` + `read`) and `strictyaml.load` both happen before anything
is assigned, the dict check happens next, and only then is `self._data`
overwritten.  The post-state is returned alongside the Except so failing
calls expose the state they leave behind. -/
def StraponConfig.load (c : StraponConfig) (f : ConfigFileInput) :
    Except ConfigLoadError YamlValue × StraponConfig :=
  match f with
  | .unreadable => (.error .ioError, c)
  | .schemaViolation => (.error .schemaViolation, c)
  | .parsed v =>
    match v with
    | .nonMapping => (.error .notAMapping, c)
    | .mapping m => (.ok (.mapping m), { c with loadedData := some (.mapping m) })

/-! ## Installer output streaming (strapon.py log_stream, lines 152-154)

`log_stream` drains one pipe of the installer subprocess.  The stream is the
list of decoded lines `readline` will yield (each ending in a newline except
possibly the last); after exhaustion `readline` yields the empty string
forever.  The Python loop is
`while line := (await stream.readline()).decode().rstrip(): logger_func(line)`
— it logs the rstripped line and stops as soon as the rstripped line is
empty. -/

def pyRstrip (s : String) : String :=
  String.mk (s.data.reverse.dropWhile Char.isWhitespace).reverse

/-- The lines a `log_stream` call delivers to its logger, in order. -/
def log_stream : List String → List String
  | [] => []
  | l :: rest =>
    let line := pyRstrip l
    if line = "" then [] else line :: log_stream rest

/-! ## Python object identity (for StraponMetadata set membership)

`StraponMetadata` defines neither `__eq__` nor `__hash__`, so Python's
defaults apply: equality and hashing by object identity (`id(obj)`).
A runtime object is its payload together with its identity. -/

structure PyObj (α : Type) where
  objId : Nat
  val : α

/-- Default Python `__eq__`: identity comparison. -/
def pyDefaultEq {α : Type} (a b : PyObj α) : Bool :=
  a.objId == b.objId

/-- Membership test of a Python `set`, as used for `potential_strapons` and
`failed` in `load_all_strapons`: some element equal (by `__eq__`) to the
probe is present. -/
def pySetMem {α : Type} (x : PyObj α) (s : List (PyObj α)) : Bool :=
  s.any (fun y => pyDefaultEq y x)

/-! ## Log archival (bot.py setup_bot_logging, lines 94-120)

The routine reads the first `len(today.strftime("%Y-%m-%d"))` = 10
characters of an existing `latest.log`, tries
`datetime.datetime.strptime(date_str, "%Y-%m-%d")`, falls back to the
literal `"INVALID"` on `ValueError`, then scans `itertools.count(start=1)`
for the first `<date_str>.<n>.log` that does not exist and renames
`latest.log` to it.  A fresh `latest.log` is then created by the
`FileHandler(..., "w")`.

CPython's `_strptime` matches `%Y` as exactly four digits, `%m` by the
ordered alternatives `1[0-2]|0[1-9]|[1-9]`, `%d` by
`3[01]|[12]\d|0[1-9]|[1-9]`, requires the whole string to be consumed, and
then validates the fields by constructing `datetime` (year at least 1, day
within the month).  `strptimeAcceptsYmd` reproduces that acceptance. -/

def digitVal (c : Char) : Nat :=
  c.toNat - '0'.toNat

/-- Matcher for `%Y` in CPython `_strptime`: exactly four digits. -/
def parseYear4 : List Char → Option (Nat × List Char)
  | a :: b :: c :: d :: rest =>
    if a.isDigit && b.isDigit && c.isDigit && d.isDigit then
      some (1000 * digitVal a + 100 * digitVal b + 10 * digitVal c + digitVal d, rest)
    else none
  | _ => none

/-- Matcher for `%m`: the ordered regex alternatives `1[0-2]`, `0[1-9]`,
`[1-9]`.  When a two-character alternative matches, the character after it
is a digit, so the one-character fallback could never let the following
literal `-` match; the ordered choice is therefore deterministic. -/
def parseMonth2 : List Char → Option (Nat × List Char)
  | [] => none
  | c :: rest =>
    if c = '1' then
      match rest with
      | c2 :: rest2 =>
        if '0' ≤ c2 && c2 ≤ '2' then some (10 + digitVal c2, rest2) else some (1, rest)
      | [] => some (1, [])
    else if c = '0' then
      match rest with
      | c2 :: rest2 =>
        if '1' ≤ c2 && c2 ≤ '9' then some (digitVal c2, rest2) else none
      | [] => none
    else if '2' ≤ c && c ≤ '9' then some (digitVal c, rest)
    else none

/-- Matcher for `%d`: the ordered regex alternatives `3[01]`, `[12]\d`,
`0[1-9]`, `[1-9]`. -/
def parseDay2 : List Char → Option (Nat × List Char)
  | [] => none
  | c :: rest =>
    if c = '3' then
      match rest with
      | c2 :: rest2 =>
        if c2 = '0' || c2 = '1' then some (30 + digitVal c2, rest2) else some (3, rest)
      | [] => some (3, [])
    else if c = '1' || c = '2' then
      match rest with
      | c2 :: rest2 =>
        if c2.isDigit then some (10 * digitVal c + digitVal c2, rest2)
        else some (digitVal c, rest)
      | [] => some (digitVal c, [])
    else if c = '0' then
      match rest with
      | c2 :: rest2 =>
        if '1' ≤ c2 && c2 ≤ '9' then some (digitVal c2, rest2) else none
      | [] => none
    else if '4' ≤ c && c ≤ '9' then some (digitVal c, rest)
    else none

/-- The full `%Y-%m-%d` match: year, literal `-`, month, literal `-`, day,
and nothing left over (a leftover raises `ValueError` in `_strptime`). -/
def strptimeYmd (l : List Char) : Option (Nat × Nat × Nat) :=
  match parseYear4 l with
  | none => none
  | some (y, r1) =>
    match r1 with
    | '-' :: r2 =>
      match parseMonth2 r2 with
      | none => none
      | some (m, r3) =>
        match r3 with
        | '-' :: r4 =>
          match parseDay2 r4 with
          | none => none
          | some (d, r5) => if r5 = [] then some (y, m, d) else none
        | _ => none
    | _ => none

def isLeapYear (y : Nat) : Bool :=
  y % 4 = 0 && (y % 100 ≠ 0 || y % 400 = 0)

def daysInMonth (y m : Nat) : Nat :=
  if m = 2 then (if isLeapYear y then 29 else 28)
  else if m = 4 || m = 6 || m = 9 || m = 11 then 30
  else 31

/-- Whether `datetime.datetime.strptime(s, "%Y-%m-%d")` succeeds: the
regex match consumes the whole string and the fields form a valid
`datetime.date` (year at least 1; the regex already bounds the month to
1..12 and the day to 1..31, leaving the day-of-month bound to check). -/
def strptimeAcceptsYmd (l : List Char) : Bool :=
  match strptimeYmd l with
  | some (y, m, d) => 1 ≤ y && d ≤ daysInMonth y m
  | none => false

/-- State of the `logs/` directory: the content of `latest.log` when that
file exists, and the `<name>.<n>.log` archive files already present. -/
structure LogsState where
  latestContent : Option String
  archives : List (String × Nat)
deriving DecidableEq

/-- The `for log_number in itertools.count(start=1)` scan: the first index
from `n` upward (within `fuel` steps) for which no `<d>.<index>.log`
exists. -/
def findArchiveIndexFrom (archives : List (String × Nat)) (d : String) :
    Nat → Nat → Nat
  | 0, n => n
  | fuel + 1, n =>
    if archives.contains (d, n) then findArchiveIndexFrom archives d fuel (n + 1)
    else n

/-- The archive index the scan settles on.  `archives.length + 1` steps
always suffice: the scan visits that many distinct indices, and the
directory holds only `archives.length` files. -/
def findArchiveIndex (archives : List (String × Nat)) (d : String) : Nat :=
  findArchiveIndexFrom archives d (archives.length + 1) 1

/-- The `date_str` the archival routine settles on: the first ten
characters of the log content (`file.read(timestamp_length)`;
`timestamp_length` is ten, the length of any `%Y-%m-%d` rendering) when
`strptime` accepts them, the literal `INVALID` otherwise. -/
def archiveDateStr (content : String) : String :=
  if strptimeAcceptsYmd (content.data.take 10) then String.mk (content.data.take 10)
  else "INVALID"

/-- Model of the archival part of `setup_bot_logging`: returns the new
directory state and, when an archive happened, the archive file name parts
and the content moved into it. -/
def setup_bot_logging (st : LogsState) : LogsState × Option (String × Nat × String) :=
  match st.latestContent with
  | none => ({ st with latestContent := some "" }, none)
  | some content =>
    let dateStr := archiveDateStr content
    let n := findArchiveIndex st.archives dateStr
    ({ latestContent := some "", archives := (dateStr, n) :: st.archives },
     some (dateStr, n, content))

/-! ## Unit lifecycle (bot.py load_extension / _load_from_module_spec,
strapon.py Strapon.load)

The mutable process state the lifecycle touches: `sys.modules` (keys), the
bot's `_BotBase__extensions` table (keys), and the dispatcher — the set of
cogs registered with the bot, each tagged with the module it came from
(discord.py's `_remove_module_references` detaches precisely the handlers
whose `__module__` belongs to the unloading module). -/

structure BotState where
  sysModules : List String
  extensions : List String
  dispatcher : List (String × String)
deriving DecidableEq

/-- Dict-style insertion: the key is present exactly once afterwards. -/
def pyDictSet (k : String) (l : List String) : List String :=
  k :: l.filter (fun x => x != k)

/-- Dict-style deletion: the key is absent afterwards. -/
def pyDictDel (k : String) (l : List String) : List String :=
  l.filter (fun x => x != k)

/-- The `del sys.modules[key]` performed alone on the early failure paths
of `_load_from_module_spec` (exec error, missing setup, non-coroutine
setup). -/
def delSysModule (key : String) (st : BotState) : BotState :=
  { st with sysModules := pyDictDel key st.sysModules }

/-- The full rollback of the setup-stage failure path:
`del sys.modules[key]`, then `_remove_module_references` (detach every
dispatcher entry tagged with the module), then `_call_module_finalizers`
(pop the extension-table entry and the `sys.modules` entry again). -/
def rollbackModule (key : String) (st : BotState) : BotState :=
  { sysModules := pyDictDel key st.sysModules,
    extensions := pyDictDel key st.extensions,
    dispatcher := st.dispatcher.filter (fun p => p.1 != key) }

/-- Behaviour of one `Strapon` object as built by the unit's `setup`:
whether a config object was passed, whether its load succeeds, the declared
requirements, the cogs queued by `register_cog`, and — when `add_cog`
raises partway — the index at which it does. -/
structure Strapon where
  hasConfig : Bool
  configLoadOk : Bool
  requirements : List Requirement
  cogs : List String
  cogAddFailAt : Option Nat

inductive StraponLoadResult where
  | ok
  | configFailed
  | reloadRequired
  | installFailed (exitCode : Int)
  | cogFailed
deriving DecidableEq

/-- The per-call environment `Strapon.load` runs against: the snapshot of
installed distributions its dependency check sees and the exit code an
installer subprocess would finish with. -/
structure InstallEnv where
  installed : List Distribution
  exitCode : Int

/-- Model of `Strapon.load` (strapon.py lines 97-117): config load first
(wrapping any failure), then `install_requirements` — raising the reload
signal when it returns `True` — then `add_cog` for each registered cog.
Returns the result, the number of installer subprocesses spawned, and the
cogs that were actually added to the dispatcher before completion or
failure. -/
def Strapon.load (s : Strapon) (env : InstallEnv) :
    StraponLoadResult × Nat × List String :=
  if s.hasConfig && !s.configLoadOk then (.configFailed, 0, [])
  else
    let io := install_requirements env.installed env.exitCode s.requirements
    match io.result with
    | .error code => (.installFailed code, io.spawns, [])
    | .ok true => (.reloadRequired, io.spawns, [])
    | .ok false =>
      match s.cogAddFailAt with
      | some k =>
        if k < s.cogs.length then (.cogFailed, io.spawns, s.cogs.take k)
        else (.ok, io.spawns, s.cogs)
      | none => (.ok, io.spawns, s.cogs)

/-- Behaviour of the unit's `setup` entry point as `_load_from_module_spec`
probes it. -/
inductive SetupBehavior where
  | missing
  | notCoroutine
  | raises
  | wrongReturnType
  | returns (s : Strapon)

/-- Behaviour of the unit's module object: whether `exec_module` succeeds
and what the `setup` attribute looks like afterwards. -/
structure PluginModule where
  execOk : Bool
  setup : SetupBehavior

inductive LoadErr where
  | extensionFailedExec
  | noEntryPoint
  | extensionFailedNotCoroutine
  | extensionFailedSetup
  | reloadSignal
deriving DecidableEq

/-- Model of `HarnessBot._load_from_module_spec` (bot.py lines 142-180).
Returns the result, the post-call state, and the number of installer
subprocesses spawned during the call.  `reloadSignal` is
`RequirementInstallSuccessError` propagating after the cleanup; every other
error is the `ExtensionFailed` / `NoEntryPointError` raised on that path. -/
def loadFromModuleSpec (m : PluginModule) (env : InstallEnv) (key : String)
    (st : BotState) : Except LoadErr Unit × BotState × Nat :=
  let st1 := { st with sysModules := pyDictSet key st.sysModules }
  if !m.execOk then (.error .extensionFailedExec, delSysModule key st1, 0)
  else match m.setup with
  | .missing => (.error .noEntryPoint, delSysModule key st1, 0)
  | .notCoroutine => (.error .extensionFailedNotCoroutine, delSysModule key st1, 0)
  | .raises => (.error .extensionFailedSetup, rollbackModule key st1, 0)
  | .wrongReturnType => (.error .extensionFailedSetup, rollbackModule key st1, 0)
  | .returns s =>
    let (res, n, added) := s.load env
    let st2 := { st1 with dispatcher := st1.dispatcher ++ added.map (fun c => (key, c)) }
    match res with
    | .ok => (.ok (), { st2 with extensions := pyDictSet key st2.extensions }, n)
    | .reloadRequired => (.error .reloadSignal, rollbackModule key st2, n)
    | .configFailed => (.error .extensionFailedSetup, rollbackModule key st2, n)
    | .installFailed _ => (.error .extensionFailedSetup, rollbackModule key st2, n)
    | .cogFailed => (.error .extensionFailedSetup, rollbackModule key st2, n)

inductive ExtensionError where
  | alreadyLoaded
  | notFound
  | load (e : LoadErr)
deriving DecidableEq

/-- Aggregate observables of one `load_extension` call. -/
structure LoadExtensionOutcome where
  result : Except ExtensionError Unit
  state : BotState
  spawns : Nat
  attempts : Nat

/-- Model of `HarnessBot.load_extension` (bot.py lines 125-139): reject a
key already in the extension table, reject a module spec that cannot be
found, run `_load_from_module_spec`, and on `RequirementInstallSuccessError`
run it once more — a reload signal from that second attempt is not caught
and escapes to the caller.  `env1` and `env2` are the installed-package
environments the two attempts observe (the install performed by the first
attempt changes the environment the retry sees). -/
def load_extension (m : PluginModule) (env1 env2 : InstallEnv) (specFound : Bool)
    (key : String) (st : BotState) : LoadExtensionOutcome :=
  if st.extensions.contains key then
    { result := .error .alreadyLoaded, state := st, spawns := 0, attempts := 0 }
  else if !specFound then
    { result := .error .notFound, state := st, spawns := 0, attempts := 0 }
  else
    match loadFromModuleSpec m env1 key st with
    | (.error .reloadSignal, st1, n1) =>
      match loadFromModuleSpec m env2 key st1 with
      | (r2, st2, n2) =>
        { result := r2.mapError .load, state := st2, spawns := n1 + n2, attempts := 2 }
    | (r1, st1, n1) =>
      { result := r1.mapError .load, state := st1, spawns := n1, attempts := 1 }

/-- A requirement is satisfied by the snapshot in the sense of the spec:
some installed distribution has exactly its name and a version inside its
specifier. -/
def satisfiedBySnapshot (installed : List Distribution) (r : Requirement) : Prop :=
  ∃ d ∈ installed, d.name = r.name ∧ r.specContains d.version = true

/-- Modelled from the claim's words: "a date stamp in YYYY-MM-DD form" —
four digits, a dash, two digits, a dash, two digits, as the first ten
characters. -/
def claimYmdStampForm : List Char → Bool
  | [a, b, c, d, e, f, g, h, i, j] =>
    a.isDigit && b.isDigit && c.isDigit && d.isDigit && e == '-'
      && f.isDigit && g.isDigit && h == '-' && i.isDigit && j.isDigit
  | _ => false

/-! ## Theorems -/

/-- C5: the ManifestReader normalizes ids by lowercasing and collapsing
runs of `-`, `_`, `.` into a single `_` (`importable_normalise`), and
`StraponMetadata` construction fails whenever the declared id is not
already equal to its own normalized form or differs from the containing
directory's base name; a constructed metadata value therefore always has
`id = importable_normalise id` and `id = dirName`. -/
theorem manifest_id_normalisation (c : Candidate) :
    (∀ md, straponMetadataInit c = .ok md →
      md.id = importable_normalise md.id ∧ md.id = c.dirName)
    ∧ (∀ py proj i, c.toml = some py → py.project = some proj →
        proj.id = some i → (i ≠ importable_normalise i ∨ i ≠ c.dirName) →
        ∃ e, straponMetadataInit c = .error e) := by
  constructor
  · intro md h
    unfold straponMetadataInit at h
    split at h
    · exact absurd h (by simp)
    · split at h
      · exact absurd h (by simp)
      · split at h
        · exact absurd h (by simp)
        · split at h
          · exact absurd h (by simp)
          · split at h
            · exact absurd h (by simp)
            · split at h
              · exact absurd h (by simp)
              · split at h
                · exact absurd h (by simp)
                · rename_i hnorm hdir
                  rw [not_not] at hnorm hdir
                  cases h
                  exact ⟨hnorm, hdir⟩
  · intro py proj i hpy hproj hid hbad
    cases hres : straponMetadataInit c with
    | error e => exact ⟨e, rfl⟩
    | ok md =>
      exfalso
      unfold straponMetadataInit at hres
      split at hres
      · exact absurd hres (by simp)
      · simp only [hpy] at hres
        simp only [hproj] at hres
        simp only [hid] at hres
        split at hres
        · exact absurd hres (by simp)
        · split at hres
          · exact absurd hres (by simp)
          · split at hres
            · exact absurd hres (by simp)
            · rename_i hnorm hdir
              rw [not_not] at hnorm hdir
              rcases hbad with hb | hb
              · exact hb hnorm
              · exact hb hdir

/-- C5 witness: a manifest declaring the id `Foo` (capitalised, so not in
normalised form) inside the directory `foo` is rejected. -/
theorem manifest_id_normalisation_witness :
    ∃ e, straponMetadataInit
      { dirName := "foo", importName := "data.strapons.foo", hasInit := true,
        hasPyproject := true,
        toml := some ({ project := some ({ name := some "Foo", id := some "Foo",
                                           dependencies := [] } : ProjectTable) }
                      : PyProject) }
      = .error e :=
  (manifest_id_normalisation _).2 _ _ "Foo" rfl rfl rfl (Or.inl (by decide))

/-- C3 counterexample: a candidate directory that has both marker files but
an invalid manifest (id `other_name` differing from the directory name
`beta`) is not skipped — the exception from `StraponMetadata.__init__`
propagates and the whole discovery batch fails, even though the sibling
candidate `alpha` is perfectly valid (shown by its solo run succeeding). -/
theorem discovery_invalid_manifest_fatal :
    discoverStrapons
      [{ dirName := "alpha", importName := "data.strapons.alpha", hasInit := true,
         hasPyproject := true,
         toml := some ({ project := some ({ name := some "Alpha", id := some "alpha",
                                            dependencies := [] } : ProjectTable) }
                       : PyProject) }]
      ["alpha"]
      = .ok [{ display_name := "Alpha", id := "alpha",
               import_name := "data.strapons.alpha", requirements := [] }]
    ∧ discoverStrapons
        [{ dirName := "alpha", importName := "data.strapons.alpha", hasInit := true,
           hasPyproject := true,
           toml := some ({ project := some ({ name := some "Alpha", id := some "alpha",
                                              dependencies := [] } : ProjectTable) }
                         : PyProject) },
         { dirName := "beta", importName := "data.strapons.beta", hasInit := true,
           hasPyproject := true,
           toml := some ({ project := some ({ name := some "Beta", id := some "other_name",
                                              dependencies := [] } : ProjectTable) }
                         : PyProject) }]
        ["alpha"]
        = .error .idMismatch :=
  ⟨rfl, rfl⟩

/-- C3 amended: during discovery, a candidate subdirectory missing the
manifest or the entry-point marker file is skipped without failing the
batch, but a candidate that has both files and an invalid manifest aborts
the whole discovery: discovery succeeds exactly when every candidate that
has both files also has a constructible manifest. -/
theorem discovery_skip_missing_files (cands : List Candidate) (enabled : List String) :
    (∃ mds, discoverStrapons cands enabled = .ok mds)
      ↔ ∀ c ∈ cands, c.hasInit = true → c.hasPyproject = true →
          ∃ md, straponMetadataInit c = .ok md := by
  induction cands with
  | nil => simp [discoverStrapons]
  | cons c rest ih =>
    by_cases hfiles : c.hasInit && c.hasPyproject
    · rw [Bool.and_eq_true] at hfiles
      constructor
      · intro hok c' hc' h1 h2
        rcases hok with ⟨mds, hmds⟩
        unfold discoverStrapons at hmds
        rw [if_neg (by simp [hfiles.1, hfiles.2])] at hmds
        rcases hmeta : straponMetadataInit c with e | md
        · rw [hmeta] at hmds; exact absurd hmds (by simp)
        · rw [hmeta] at hmds
          rcases List.mem_cons.mp hc' with hc' | hc'
          · subst hc'; exact ⟨md, hmeta⟩
          · rcases hrest : discoverStrapons rest enabled with e | mds'
            · rw [hrest] at hmds; exact absurd hmds (by simp)
            · exact (ih.mp ⟨mds', hrest⟩) c' hc' h1 h2
      · intro hall
        have hc := hall c (List.mem_cons_self c rest) hfiles.1 hfiles.2
        rcases hc with ⟨md, hmd⟩
        have hrest := ih.mpr (fun c' hc' => hall c' (List.mem_cons_of_mem c hc'))
        rcases hrest with ⟨mds', hmds'⟩
        refine ⟨if enabled.contains md.id then md :: mds' else mds', ?_⟩
        unfold discoverStrapons
        rw [if_neg (by simp [hfiles.1, hfiles.2]), hmd, hmds']
    · have hstep : discoverStrapons (c :: rest) enabled = discoverStrapons rest enabled := by
        conv_lhs => unfold discoverStrapons
        rw [if_pos (by simpa using hfiles)]
      rw [hstep]
      rw [Bool.and_eq_true] at hfiles
      push_neg at hfiles
      constructor
      · intro hok c' hc' h1 h2
        rcases List.mem_cons.mp hc' with hc' | hc'
        · subst hc'; exact absurd (hfiles h1) (by simp [h2])
        · exact (ih.mp hok) c' hc' h1 h2
      · intro hall
        exact ih.mpr (fun c' hc' => hall c' (List.mem_cons_of_mem c hc'))

/-- C3 amended witness: a directory lacking `__init__.py` is skipped and
the batch still succeeds. -/
theorem discovery_skip_missing_files_witness :
    ∃ mds, discoverStrapons
      [{ dirName := "notaplugin", importName := "data.strapons.notaplugin",
         hasInit := false, hasPyproject := true, toml := none }] [] = .ok mds :=
  (discovery_skip_missing_files _ _).mpr
    (by intro c hc h1 h2
        simp only [List.mem_singleton] at hc
        rw [hc] at h1
        exact absurd h1 (by decide))

/-! ### Dependency-check lemmas (shared by the installer claims) -/

theorem version_lookup_eq_of_nodup (installed : List Distribution)
    (d : Distribution) (hmem : d ∈ installed)
    (hnodup : (installed.map Distribution.name).Nodup) :
    version_lookup installed d.name = some d.version := by
  induction installed with
  | nil => cases hmem
  | cons hd tl ih =>
    rcases List.mem_cons.mp hmem with h | h
    · subst h
      unfold version_lookup
      rw [List.find?_cons_of_pos _ (by simp)]
      rfl
    · rw [List.map_cons, List.nodup_cons] at hnodup
      have hne : ¬ (hd.name == d.name) = true := by
        simp only [beq_iff_eq]
        intro heq
        exact hnodup.1 (heq ▸ List.mem_map_of_mem Distribution.name h)
      unfold version_lookup
      rw [@List.find?_cons_of_neg Distribution (fun x => x.name == d.name) hd tl hne]
      exact ih h hnodup.2

theorem isUnsatisfiedAux_false_of_found (full : List Distribution)
    (r : Requirement) (l : List Distribution) (d : Distribution)
    (hmem : d ∈ l) (hname : d.name = r.name) (v : String)
    (hlook : version_lookup full r.name = some v) (hspec : r.specContains v = true) :
    isUnsatisfiedAux full r l = false := by
  induction l with
  | nil => cases hmem
  | cons hd tl ih =>
    unfold isUnsatisfiedAux
    by_cases hn : r.name = hd.name
    · rw [if_pos hn, hlook]
      simp [hspec]
    · rw [if_neg hn]
      rcases List.mem_cons.mp hmem with h | h
      · exact absurd (h ▸ hname).symm hn
      · exact ih h

theorem isUnsatisfiedAux_false_elim (full : List Distribution)
    (r : Requirement) (l : List Distribution)
    (h : isUnsatisfiedAux full r l = false) :
    ∃ v, version_lookup full r.name = some v ∧ r.specContains v = true := by
  induction l with
  | nil => exact absurd h (by simp [isUnsatisfiedAux])
  | cons hd tl ih =>
    unfold isUnsatisfiedAux at h
    by_cases hn : r.name = hd.name
    · rw [if_pos hn] at h
      rcases hlook : version_lookup full r.name with _ | v
      · rw [hlook] at h
        rcases ih h with ⟨v, hv, hs⟩
        rw [hlook] at hv
        exact absurd hv (by simp)
      · rw [hlook] at h
        by_cases hs : r.specContains v = true
        · exact ⟨v, rfl, hs⟩
        · have htl : isUnsatisfiedAux full r tl = false := by
            simpa [hs] using h
          rcases ih htl with ⟨v', hv', hs'⟩
          rw [hlook, Option.some_inj] at hv'
          rw [← hv'] at hs'
          exact absurd hs' hs
    · rw [if_neg hn] at h
      exact ih h

theorem isUnsatisfiedAux_true_of_no_match (full : List Distribution)
    (r : Requirement) (l : List Distribution)
    (h : ∀ d ∈ l, d.name ≠ r.name) :
    isUnsatisfiedAux full r l = true := by
  induction l with
  | nil => rfl
  | cons hd tl ih =>
    unfold isUnsatisfiedAux
    rw [if_neg (fun he => h hd (List.mem_cons_self hd tl) he.symm)]
    exact ih (fun d hd' => h d (List.mem_cons_of_mem hd hd'))

theorem install_requirements_missing_eq (installed : List Distribution)
    (exitCode : Int) (reqs : List Requirement) :
    (install_requirements installed exitCode reqs).missing
      = reqs.filter (fun r => is_unsatisfied installed r) := by
  simp only [install_requirements]
  split <;> rfl

/-- C4: for every unit all of whose declared dependency specifiers are
satisfied by the currently installed package snapshot (which, being one
Python environment, carries each distribution name once),
`install_requirements` classifies nothing as missing, spawns no installer
subprocess, and returns `false`. -/
theorem install_requirements_noop (installed : List Distribution)
    (reqs : List Requirement) (exitCode : Int)
    (hnodup : (installed.map Distribution.name).Nodup)
    (hsat : ∀ r ∈ reqs, satisfiedBySnapshot installed r) :
    install_requirements installed exitCode reqs
      = { missing := [], spawns := 0, result := .ok false } := by
  have hfilter : reqs.filter (fun r => is_unsatisfied installed r) = [] := by
    rw [List.filter_eq_nil_iff]
    intro r hr
    rcases hsat r hr with ⟨d, hmem, hname, hspec⟩
    have hlook := version_lookup_eq_of_nodup installed d hmem hnodup
    rw [hname] at hlook
    simp only [is_unsatisfied]
    rw [isUnsatisfiedAux_false_of_found installed r installed d hmem hname d.version
      hlook hspec]
    exact Bool.false_ne_true
  unfold install_requirements
  rw [hfilter]
  rfl

/-- C4 witness: a unit requiring `examplepkg` with the installed version in
range triggers no install. -/
theorem install_requirements_noop_witness :
    install_requirements [{ name := "examplepkg", version := "1.0" }] 7
      [{ name := "examplepkg", specContains := fun v => v == "1.0" }]
      = { missing := [], spawns := 0, result := .ok false } :=
  install_requirements_noop _ _ 7 (by simp)
    (by intro r hr
        rw [List.mem_singleton] at hr
        exact ⟨{ name := "examplepkg", version := "1.0" }, by simp, by rw [hr], by rw [hr]; rfl⟩)

/-- C10: the dependency-satisfaction check matches names by exact string
comparison: a requirement counts as satisfied only when some installed
distribution's name equals the requirement's name exactly and the version
looked up for that name lies in the specifier; and a requirement whose name
matches no installed distribution exactly is classified missing and is
among the requirements handed to the installer — no case folding or PEP 503
normalization is applied to the comparison. -/
theorem requirement_name_exact_match (installed : List Distribution)
    (r : Requirement) (reqs : List Requirement) (exitCode : Int) (hr : r ∈ reqs) :
    (is_unsatisfied installed r = false →
      ∃ d ∈ installed, d.name = r.name ∧ r.specContains d.version = true)
    ∧ ((∀ d ∈ installed, d.name ≠ r.name) →
      is_unsatisfied installed r = true
        ∧ r ∈ (install_requirements installed exitCode reqs).missing) := by
  constructor
  · intro h
    rcases isUnsatisfiedAux_false_elim installed r installed h with ⟨v, hlook, hspec⟩
    unfold version_lookup at hlook
    rcases hfind : installed.find? (fun d => d.name == r.name) with _ | d0
    · rw [hfind] at hlook; exact absurd hlook (by simp)
    · rw [hfind] at hlook
      simp only [Option.map_some'] at hlook
      have hmem := List.mem_of_find?_eq_some hfind
      have hname : d0.name = r.name := by
        have := List.find?_some hfind
        exact beq_iff_eq.mp this
      exact ⟨d0, hmem, hname, by rw [Option.some_inj] at hlook; rw [hlook]; exact hspec⟩
  · intro h
    have hu : is_unsatisfied installed r = true :=
      isUnsatisfiedAux_true_of_no_match installed r installed h
    refine ⟨hu, ?_⟩
    rw [install_requirements_missing_eq]
    exact List.mem_filter.mpr ⟨hr, hu⟩

/-- C10 witness: `Foo` is not satisfied by an installed distribution named
`foo` (case differs), and is passed to the installer. -/
theorem requirement_name_exact_match_witness :
    is_unsatisfied [{ name := "foo", version := "1.0" }]
      { name := "Foo", specContains := fun v => v == "1.0" } = true
    ∧ ({ name := "Foo", specContains := fun v => v == "1.0" } : Requirement)
        ∈ (install_requirements [{ name := "foo", version := "1.0" }] 0
            [{ name := "Foo", specContains := fun v => v == "1.0" }]).missing :=
  (requirement_name_exact_match [{ name := "foo", version := "1.0" }]
    { name := "Foo", specContains := fun v => v == "1.0" }
    [{ name := "Foo", specContains := fun v => v == "1.0" }] 0
    (List.mem_singleton.mpr rfl)).2
    (by intro d hd
        rw [List.mem_singleton] at hd
        rw [hd]
        decide)

/-- C9: `StraponConfig.load` is atomic on error — when the load fails for
any reason (unreadable file, schema violation, or a parsed document that is
not a mapping), the stored document is untouched and the `data` accessor
returns exactly what it returned before the call. -/
theorem config_load_atomic_on_error (c : StraponConfig) (f : ConfigFileInput)
    (e : ConfigLoadError) (h : (StraponConfig.load c f).1 = .error e) :
    ((StraponConfig.load c f).2).data = c.data := by
  cases f with
  | unreadable => rfl
  | schemaViolation => rfl
  | parsed v =>
    cases v with
    | nonMapping => rfl
    | mapping m => exact absurd h (by simp [StraponConfig.load])

/-- C9 witness: a schema violation leaves a previously loaded document in
place. -/
theorem config_load_atomic_on_error_witness :
    ((StraponConfig.load { loadedData := some (.mapping [("token", "abc")]) }
        .schemaViolation).2).data
      = ({ loadedData := some (.mapping [("token", "abc")]) } : StraponConfig).data :=
  config_load_atomic_on_error _ .schemaViolation .schemaViolation rfl

/-- C6 counterexample: `StraponMetadata` defines neither `__eq__` nor
`__hash__`, so two separately constructed metadata objects with identical
fields — in particular identical `id` — are distinct set/map keys: the
default identity equality returns `False` for them, refuting "equal iff
their id matches". -/
theorem metadata_equality_counterexample :
    pyDefaultEq
      (⟨0, { display_name := "Foo", id := "foo", import_name := "data.strapons.foo",
             requirements := [] }⟩ : PyObj StraponMetadata)
      (⟨1, { display_name := "Foo", id := "foo", import_name := "data.strapons.foo",
             requirements := [] }⟩ : PyObj StraponMetadata) = false
    ∧ (⟨0, { display_name := "Foo", id := "foo", import_name := "data.strapons.foo",
             requirements := [] }⟩ : PyObj StraponMetadata).val.id
      = (⟨1, { display_name := "Foo", id := "foo", import_name := "data.strapons.foo",
               requirements := [] }⟩ : PyObj StraponMetadata).val.id :=
  ⟨rfl, rfl⟩

/-- C6 amended: as used for set membership and map keys,
two `StraponMetadata` values are equal iff they are the same object
(CPython reference identity) — a matching `id` field is neither required by
the code's comparison nor sufficient for it. -/
theorem metadata_equality_is_identity (s : List (PyObj StraponMetadata))
    (x : PyObj StraponMetadata) :
    pySetMem x s = true ↔ ∃ y ∈ s, y.objId = x.objId := by
  simp [pySetMem, pyDefaultEq, List.any_eq_true, beq_iff_eq]

/-- C6 amended witness: an object is a member of a set containing exactly
itself. -/
theorem metadata_equality_is_identity_witness :
    pySetMem
      (⟨5, { display_name := "Foo", id := "foo", import_name := "data.strapons.foo",
             requirements := [] }⟩ : PyObj StraponMetadata)
      [⟨5, { display_name := "Foo", id := "foo", import_name := "data.strapons.foo",
             requirements := [] }⟩] = true :=
  (metadata_equality_is_identity _ _).mpr
    ⟨⟨5, { display_name := "Foo", id := "foo", import_name := "data.strapons.foo",
           requirements := [] }⟩, List.mem_singleton.mpr rfl, rfl⟩

/-- C8: the stream-draining loop stops at the first line that is empty
after stripping trailing whitespace, not at end of stream — an installer
whose standard output contains a blank line has its subsequent lines
silently dropped, contradicting the requirement that every line be
delivered and both streams be drained to end of stream. -/
theorem log_stream_truncates_at_blank_line :
    log_stream ["Collecting examplepkg\n", "\n",
                "Successfully installed examplepkg-1.0\n"]
      = ["Collecting examplepkg"]
    ∧ "Successfully installed examplepkg-1.0" ∉
        log_stream ["Collecting examplepkg\n", "\n",
                    "Successfully installed examplepkg-1.0\n"] := by
  constructor
  · rfl
  · decide

/-! ### Archive-index lemmas (for the log-archival claim) -/

theorem findArchiveIndexFrom_least (archives : List (String × Nat)) (d : String) :
    ∀ (fuel start : Nat),
      (∃ k, start ≤ k ∧ k < start + fuel ∧ archives.contains (d, k) = false) →
      archives.contains (d, findArchiveIndexFrom archives d fuel start) = false
      ∧ start ≤ findArchiveIndexFrom archives d fuel start
      ∧ ∀ j, start ≤ j → j < findArchiveIndexFrom archives d fuel start →
          archives.contains (d, j) = true := by
  intro fuel
  induction fuel with
  | zero =>
    intro start hex
    rcases hex with ⟨k, hk1, hk2, _⟩
    omega
  | succ m ih =>
    intro start hex
    rcases hex with ⟨k, hk1, hk2, hk3⟩
    unfold findArchiveIndexFrom
    by_cases hc : archives.contains (d, start) = true
    · rw [if_pos hc]
      have hks : k ≠ start := by
        intro he
        rw [he, hc] at hk3
        exact absurd hk3 (by simp)
      obtain ⟨h1, h2, h3⟩ := ih (start + 1) ⟨k, by omega, by omega, hk3⟩
      refine ⟨h1, by omega, ?_⟩
      intro j hj1 hj2
      by_cases hjs : j = start
      · rw [hjs]; exact hc
      · exact h3 j (by omega) hj2
    · rw [if_neg hc]
      exact ⟨by simpa using hc, Nat.le_refl start, fun j hj1 hj2 => by omega⟩

theorem exists_unused_archive_index (archives : List (String × Nat)) (d : String) :
    ∃ k, 1 ≤ k ∧ k < archives.length + 2 ∧ archives.contains (d, k) = false := by
  by_contra hcon
  push_neg at hcon
  have hsub : (List.range' 1 (archives.length + 1)).map (fun k => (d, k)) ⊆ archives := by
    intro p hp
    rcases List.mem_map.mp hp with ⟨k, hk, rfl⟩
    rw [List.mem_range'_1] at hk
    have hk' := Bool.ne_false_iff.mp (hcon k hk.1 (by omega))
    have hq := List.contains_iff_exists_mem_beq.mp hk'
    rcases hq with ⟨q, hq, hbeq⟩
    rw [show (d, k) = q from eq_of_beq hbeq]
    exact hq
  have hnodup : ((List.range' 1 (archives.length + 1)).map (fun k => (d, k))).Nodup := by
    refine List.Nodup.map ?_ (List.nodup_range' 1 (archives.length + 1))
    intro a b hab
    simpa using hab
  have hlen := (List.subperm_of_subset hnodup hsub).length_le
  simp only [List.length_map, List.length_range'] at hlen
  omega

theorem findArchiveIndex_least (archives : List (String × Nat)) (d : String) :
    archives.contains (d, findArchiveIndex archives d) = false
    ∧ 1 ≤ findArchiveIndex archives d
    ∧ ∀ j, 1 ≤ j → j < findArchiveIndex archives d →
        archives.contains (d, j) = true := by
  obtain ⟨k, h1, h2, h3⟩ := exists_unused_archive_index archives d
  exact findArchiveIndexFrom_least archives d (archives.length + 1) 1
    ⟨k, h1, by omega, h3⟩

/-- C7 counterexample: a `latest.log` whose whole content is `2024-1-1`
does not start with a date stamp in strict `YYYY-MM-DD` form, yet the code
does not archive it under `INVALID`: CPython's `strptime` accepts the
unpadded `2024-1-1`, so the file is archived under the token `2024-1-1`
verbatim. -/
theorem log_archival_counterexample :
    claimYmdStampForm (("2024-1-1" : String).data.take 10) = false
    ∧ (setup_bot_logging { latestContent := some "2024-1-1", archives := [] }).2
        = some ("2024-1-1", 1, "2024-1-1")
    ∧ ("2024-1-1" : String) ≠ "INVALID" := by
  refine ⟨by decide, by decide, by decide⟩

/-- C7 amended: for every existing `latest.log`, its ten-character prefix
is archived verbatim as the date token whenever
`strptime(..., "%Y-%m-%d")` accepts it (four-digit year of a valid
calendar date; month and day of one or two digits, zero padding not
required), and under the literal token `INVALID` otherwise; the archive
index is the smallest positive integer not already taken for that token,
and a fresh empty `latest.log` begins. -/
theorem log_archival_amended (st : LogsState) (content : String)
    (h : st.latestContent = some content) :
    ∃ n,
      setup_bot_logging st
        = ({ latestContent := some "",
             archives := (archiveDateStr content, n) :: st.archives },
           some (archiveDateStr content, n, content))
      ∧ (strptimeAcceptsYmd (content.data.take 10) = true →
          archiveDateStr content = String.mk (content.data.take 10))
      ∧ (strptimeAcceptsYmd (content.data.take 10) = false →
          archiveDateStr content = "INVALID")
      ∧ 1 ≤ n
      ∧ st.archives.contains (archiveDateStr content, n) = false
      ∧ ∀ j, 1 ≤ j → j < n →
          st.archives.contains (archiveDateStr content, j) = true := by
  obtain ⟨h1, h2, h3⟩ := findArchiveIndex_least st.archives (archiveDateStr content)
  refine ⟨findArchiveIndex st.archives (archiveDateStr content), ?_, ?_, ?_, h2, h1, h3⟩
  · unfold setup_bot_logging
    rw [h]
  · intro hacc
    unfold archiveDateStr
    rw [if_pos hacc]
  · intro hacc
    unfold archiveDateStr
    rw [if_neg (by simp [hacc])]

/-- C7 amended witness: a dated log with `2024-05-06.1.log` already present
archives to index 2 and `latest.log` becomes fresh. -/
theorem log_archival_amended_witness :
    ∃ n,
      setup_bot_logging { latestContent := some "2024-05-06 10:00:00 [INFO] boot",
                          archives := [("2024-05-06", 1)] }
        = ({ latestContent := some "",
             archives := (archiveDateStr "2024-05-06 10:00:00 [INFO] boot", n)
               :: [("2024-05-06", 1)] },
           some (archiveDateStr "2024-05-06 10:00:00 [INFO] boot", n,
                 "2024-05-06 10:00:00 [INFO] boot"))
      ∧ (strptimeAcceptsYmd (("2024-05-06 10:00:00 [INFO] boot" : String).data.take 10) = true →
          archiveDateStr "2024-05-06 10:00:00 [INFO] boot"
            = String.mk (("2024-05-06 10:00:00 [INFO] boot" : String).data.take 10))
      ∧ (strptimeAcceptsYmd (("2024-05-06 10:00:00 [INFO] boot" : String).data.take 10) = false →
          archiveDateStr "2024-05-06 10:00:00 [INFO] boot" = "INVALID")
      ∧ 1 ≤ n
      ∧ ([("2024-05-06", 1)] : List (String × Nat)).contains
          (archiveDateStr "2024-05-06 10:00:00 [INFO] boot", n) = false
      ∧ ∀ j, 1 ≤ j → j < n →
          ([("2024-05-06", 1)] : List (String × Nat)).contains
            (archiveDateStr "2024-05-06 10:00:00 [INFO] boot", j) = true :=
  log_archival_amended _ _ rfl

/-! ### Rollback lemmas (for the lifecycle claims) -/

theorem not_mem_pyDictDel (k : String) (l : List String) : k ∉ pyDictDel k l := by
  intro hmem
  rcases List.mem_filter.mp hmem with ⟨_, hk⟩
  simp at hk

theorem dispatcher_clean_filter (k : String) (l : List (String × String)) :
    ∀ p ∈ l.filter (fun p => p.1 != k), p.1 ≠ k := by
  intro p hp
  rcases List.mem_filter.mp hp with ⟨_, hk⟩
  simpa using hk

theorem loadFromModuleSpec_error_clean (m : PluginModule) (env : InstallEnv)
    (key : String) (st : BotState) (e : LoadErr)
    (hext : key ∉ st.extensions)
    (hdisp : ∀ p ∈ st.dispatcher, p.1 ≠ key)
    (h : (loadFromModuleSpec m env key st).1 = .error e) :
    key ∉ (loadFromModuleSpec m env key st).2.1.sysModules
    ∧ key ∉ (loadFromModuleSpec m env key st).2.1.extensions
    ∧ ∀ p ∈ (loadFromModuleSpec m env key st).2.1.dispatcher, p.1 ≠ key := by
  by_cases hexec : m.execOk = true
  · cases hsetup : m.setup with
    | missing =>
      simp only [loadFromModuleSpec, hexec, hsetup, Bool.not_true, Bool.false_eq_true,
        if_false] at h ⊢
      exact ⟨not_mem_pyDictDel key _, hext, hdisp⟩
    | notCoroutine =>
      simp only [loadFromModuleSpec, hexec, hsetup, Bool.not_true, Bool.false_eq_true,
        if_false] at h ⊢
      exact ⟨not_mem_pyDictDel key _, hext, hdisp⟩
    | raises =>
      simp only [loadFromModuleSpec, hexec, hsetup, Bool.not_true, Bool.false_eq_true,
        if_false] at h ⊢
      exact ⟨not_mem_pyDictDel key _, not_mem_pyDictDel key _, dispatcher_clean_filter key _⟩
    | wrongReturnType =>
      simp only [loadFromModuleSpec, hexec, hsetup, Bool.not_true, Bool.false_eq_true,
        if_false] at h ⊢
      exact ⟨not_mem_pyDictDel key _, not_mem_pyDictDel key _, dispatcher_clean_filter key _⟩
    | returns s =>
      simp only [loadFromModuleSpec, hexec, hsetup, Bool.not_true, Bool.false_eq_true,
        if_false] at h ⊢
      rcases hl : s.load env with ⟨res, n, added⟩
      rw [hl] at h
      cases res with
      | ok => exact Except.noConfusion h
      | configFailed =>
        exact ⟨not_mem_pyDictDel key _, not_mem_pyDictDel key _, dispatcher_clean_filter key _⟩
      | reloadRequired =>
        exact ⟨not_mem_pyDictDel key _, not_mem_pyDictDel key _, dispatcher_clean_filter key _⟩
      | installFailed c =>
        exact ⟨not_mem_pyDictDel key _, not_mem_pyDictDel key _, dispatcher_clean_filter key _⟩
      | cogFailed =>
        exact ⟨not_mem_pyDictDel key _, not_mem_pyDictDel key _, dispatcher_clean_filter key _⟩
  · have hexec' : m.execOk = false := by revert hexec; cases m.execOk <;> simp
    simp only [loadFromModuleSpec, hexec', Bool.not_false, if_true] at h ⊢
    exact ⟨not_mem_pyDictDel key _, hext, hdisp⟩

/-- C1: rollback completeness — whenever `load_extension` fails at any
lifecycle stage (module execution error, missing or non-coroutine setup
entry point, setup exception, malformed setup return value, a config or
install or cog-registration failure inside the unit's load, or the reload
signal), the post-call state has no entry for the unit in `sys.modules`,
in the bot's extension table, or in the dispatcher: the unit is removed
entirely, never left half-registered. -/
theorem load_failure_rollback (m : PluginModule) (env1 env2 : InstallEnv)
    (specFound : Bool) (key : String) (st : BotState) (e : LoadErr)
    (hext : key ∉ st.extensions)
    (hdisp : ∀ p ∈ st.dispatcher, p.1 ≠ key)
    (h : (load_extension m env1 env2 specFound key st).result = .error (.load e)) :
    key ∉ (load_extension m env1 env2 specFound key st).state.sysModules
    ∧ key ∉ (load_extension m env1 env2 specFound key st).state.extensions
    ∧ ∀ p ∈ (load_extension m env1 env2 specFound key st).state.dispatcher,
        p.1 ≠ key := by
  have hcont : st.extensions.contains key = false := by simpa using hext
  by_cases hspec : specFound = true
  · rcases hA : loadFromModuleSpec m env1 key st with ⟨r1, stA, n1⟩
    cases r1 with
    | ok =>
      simp only [load_extension, hcont, hspec, Bool.not_true, Bool.false_eq_true,
        if_false, hA] at h
      exact Except.noConfusion h
    | error e1 =>
      cases e1 with
      | reloadSignal =>
        have hcleanA := loadFromModuleSpec_error_clean m env1 key st .reloadSignal
          hext hdisp (by rw [hA])
        rw [hA] at hcleanA
        rcases hB : loadFromModuleSpec m env2 key stA with ⟨r2, stB, n2⟩
        cases r2 with
        | ok =>
          simp only [load_extension, hcont, hspec, Bool.not_true, Bool.false_eq_true,
            if_false, hA, hB] at h
          exact Except.noConfusion h
        | error e2 =>
          have hcleanB := loadFromModuleSpec_error_clean m env2 key stA e2
            hcleanA.2.1 hcleanA.2.2 (by rw [hB])
          rw [hB] at hcleanB
          simp only [load_extension, hcont, hspec, Bool.not_true, Bool.false_eq_true,
            if_false, hA, hB]
          exact hcleanB
      | extensionFailedExec =>
        have hclean := loadFromModuleSpec_error_clean m env1 key st .extensionFailedExec
          hext hdisp (by rw [hA])
        rw [hA] at hclean
        simp only [load_extension, hcont, hspec, Bool.not_true, Bool.false_eq_true,
          if_false, hA]
        exact hclean
      | noEntryPoint =>
        have hclean := loadFromModuleSpec_error_clean m env1 key st .noEntryPoint
          hext hdisp (by rw [hA])
        rw [hA] at hclean
        simp only [load_extension, hcont, hspec, Bool.not_true, Bool.false_eq_true,
          if_false, hA]
        exact hclean
      | extensionFailedNotCoroutine =>
        have hclean := loadFromModuleSpec_error_clean m env1 key st
          .extensionFailedNotCoroutine hext hdisp (by rw [hA])
        rw [hA] at hclean
        simp only [load_extension, hcont, hspec, Bool.not_true, Bool.false_eq_true,
          if_false, hA]
        exact hclean
      | extensionFailedSetup =>
        have hclean := loadFromModuleSpec_error_clean m env1 key st
          .extensionFailedSetup hext hdisp (by rw [hA])
        rw [hA] at hclean
        simp only [load_extension, hcont, hspec, Bool.not_true, Bool.false_eq_true,
          if_false, hA]
        exact hclean
  · have hspec' : specFound = false := by revert hspec; cases specFound <;> simp
    simp only [load_extension, hcont, hspec', Bool.not_false, Bool.false_eq_true,
      if_false, if_true] at h
    exact absurd h (by simp)

/-- C1 witness: a unit whose setup raises is rolled back completely. -/
theorem load_failure_rollback_witness :
    "data.strapons.mine" ∉ (load_extension { execOk := true, setup := .raises }
        ⟨[], 0⟩ ⟨[], 0⟩ true "data.strapons.mine"
        { sysModules := ["other"], extensions := ["other"],
          dispatcher := [("other", "cog")] }).state.sysModules
    ∧ "data.strapons.mine" ∉ (load_extension { execOk := true, setup := .raises }
        ⟨[], 0⟩ ⟨[], 0⟩ true "data.strapons.mine"
        { sysModules := ["other"], extensions := ["other"],
          dispatcher := [("other", "cog")] }).state.extensions
    ∧ ∀ p ∈ (load_extension { execOk := true, setup := .raises }
        ⟨[], 0⟩ ⟨[], 0⟩ true "data.strapons.mine"
        { sysModules := ["other"], extensions := ["other"],
          dispatcher := [("other", "cog")] }).state.dispatcher,
        p.1 ≠ "data.strapons.mine" :=
  load_failure_rollback { execOk := true, setup := .raises } ⟨[], 0⟩ ⟨[], 0⟩ true
    "data.strapons.mine"
    { sysModules := ["other"], extensions := ["other"],
      dispatcher := [("other", "cog")] } .extensionFailedSetup
    (by decide) (by decide) rfl

theorem strapon_load_reload (s : Strapon) (env : InstallEnv)
    (hcfg : s.hasConfig = false ∨ s.configLoadOk = true)
    (hmiss : s.requirements.filter (fun r => is_unsatisfied env.installed r) ≠ [])
    (hexit : env.exitCode = 0) :
    s.load env = (.reloadRequired, 1, []) := by
  unfold Strapon.load
  have hc : (s.hasConfig && !s.configLoadOk) = false := by
    rcases hcfg with h | h <;> simp [h]
  rw [hc]
  have hne : (s.requirements.filter
      (fun r => is_unsatisfied env.installed r)).isEmpty = false := by
    rcases hfil : s.requirements.filter (fun r => is_unsatisfied env.installed r)
      with _ | ⟨a, l⟩
    · exact absurd hfil hmiss
    · rfl
  simp only [install_requirements, hne, Bool.false_eq_true, if_false, hexit,
    if_pos rfl]
  rfl

theorem loadFromModuleSpec_reload (s : Strapon) (env : InstallEnv)
    (key : String) (st : BotState)
    (hcfg : s.hasConfig = false ∨ s.configLoadOk = true)
    (hmiss : s.requirements.filter (fun r => is_unsatisfied env.installed r) ≠ [])
    (hexit : env.exitCode = 0) :
    (loadFromModuleSpec { execOk := true, setup := .returns s } env key st).1
      = .error .reloadSignal
    ∧ (loadFromModuleSpec { execOk := true, setup := .returns s } env key st).2.2
      = 1 := by
  have hload := strapon_load_reload s env hcfg hmiss hexit
  simp only [loadFromModuleSpec, hload, Bool.not_true, Bool.false_eq_true, if_false]
  exact ⟨trivial, trivial⟩

/-- C2: a unit whose dependency check reports missing dependencies on both
the first load attempt and the single retry fails hard with the reload
signal escaping `load_extension` (the spec's `RepeatedReloadRequired`);
the lifecycle ran exactly twice (one retry) and the installer subprocess
was spawned exactly twice — never an infinite install loop. -/
theorem repeated_reload_hard_failure (s : Strapon) (env1 env2 : InstallEnv)
    (key : String) (st : BotState)
    (hext : key ∉ st.extensions)
    (hcfg : s.hasConfig = false ∨ s.configLoadOk = true)
    (hmiss1 : s.requirements.filter (fun r => is_unsatisfied env1.installed r) ≠ [])
    (hmiss2 : s.requirements.filter (fun r => is_unsatisfied env2.installed r) ≠ [])
    (hexit1 : env1.exitCode = 0) (hexit2 : env2.exitCode = 0) :
    (load_extension { execOk := true, setup := .returns s } env1 env2 true key st).result
      = .error (.load .reloadSignal)
    ∧ (load_extension { execOk := true, setup := .returns s } env1 env2 true key st).spawns
      = 2
    ∧ (load_extension { execOk := true, setup := .returns s } env1 env2 true key st).attempts
      = 2 := by
  have hcont : st.extensions.contains key = false := by simpa using hext
  rcases hA : loadFromModuleSpec { execOk := true, setup := .returns s } env1 key st
    with ⟨r1, stA, n1⟩
  have h1 := loadFromModuleSpec_reload s env1 key st hcfg hmiss1 hexit1
  rw [hA] at h1
  have hr1 : r1 = .error .reloadSignal := h1.1
  have hn1 : n1 = 1 := h1.2
  subst hr1
  subst hn1
  rcases hB : loadFromModuleSpec { execOk := true, setup := .returns s } env2 key stA
    with ⟨r2, stB, n2⟩
  have h2 := loadFromModuleSpec_reload s env2 key stA hcfg hmiss2 hexit2
  rw [hB] at h2
  have hr2 : r2 = .error .reloadSignal := h2.1
  have hn2 : n2 = 1 := h2.2
  subst hr2
  subst hn2
  simp only [load_extension, hcont, Bool.false_eq_true, if_false, hA, hB]
  exact ⟨rfl, rfl, rfl⟩

/-- C2 witness: a requirement that stays missing across both attempts
(empty snapshots, installer exiting 0) causes exactly one retry, two
installer subprocesses, and the escaping reload signal. -/
theorem repeated_reload_hard_failure_witness :
    (load_extension
        { execOk := true,
          setup := .returns { hasConfig := false, configLoadOk := true,
                              requirements := [{ name := "pkg", specContains := fun _ => false }],
                              cogs := [], cogAddFailAt := none } }
        ⟨[], 0⟩ ⟨[], 0⟩ true "data.strapons.mine"
        { sysModules := [], extensions := [], dispatcher := [] }).result
      = .error (.load .reloadSignal)
    ∧ (load_extension
        { execOk := true,
          setup := .returns { hasConfig := false, configLoadOk := true,
                              requirements := [{ name := "pkg", specContains := fun _ => false }],
                              cogs := [], cogAddFailAt := none } }
        ⟨[], 0⟩ ⟨[], 0⟩ true "data.strapons.mine"
        { sysModules := [], extensions := [], dispatcher := [] }).spawns = 2
    ∧ (load_extension
        { execOk := true,
          setup := .returns { hasConfig := false, configLoadOk := true,
                              requirements := [{ name := "pkg", specContains := fun _ => false }],
                              cogs := [], cogAddFailAt := none } }
        ⟨[], 0⟩ ⟨[], 0⟩ true "data.strapons.mine"
        { sysModules := [], extensions := [], dispatcher := [] }).attempts = 2 :=
  repeated_reload_hard_failure
    { hasConfig := false, configLoadOk := true,
      requirements := [{ name := "pkg", specContains := fun _ => false }],
      cogs := [], cogAddFailAt := none }
    ⟨[], 0⟩ ⟨[], 0⟩ "data.strapons.mine"
    { sysModules := [], extensions := [], dispatcher := [] }
    (by simp) (Or.inl rfl)
    (by simp [is_unsatisfied, isUnsatisfiedAux])
    (by simp [is_unsatisfied, isUnsatisfiedAux])
    rfl rfl

end Harness
